import Mathlib

/-!
Shallow embedding of `lsst.ts.observing.block` (file
`src/python/lsst/ts/observing/block.py`): the validated observing-block data
model of the ts_observing repository.  Pydantic models become Lean structures,
validators become `Except`-valued functions, JSON wire data becomes an
inductive `Json` tree, and the pydantic (de)serialization machinery relevant
to the verified properties is embedded explicitly.
-/

set_option maxRecDepth 4000

namespace Observing

/-- JSON value tree: the object-level wire representation that
`block.json()` / `json.loads` / `ObservingBlock.parse_obj` exchange.
Numbers are modelled as rationals (exact for every bound the validators
compare against). -/
inductive Json where
  | null : Json
  | bool (b : Bool) : Json
  | num (q : ℚ) : Json
  | str (s : String) : Json
  | arr (items : List Json) : Json
  | obj (entries : List (String × Json)) : Json

/-- Lookup of the first entry with the given key in a JSON object's entry
list (how a key of a decoded Python dict is read). -/
def lookupKey (entries : List (String × Json)) (k : String) : Option Json :=
  match entries with
  | [] => none
  | (k', v) :: rest => if k' = k then some v else lookupKey rest k

/-- Entries of a JSON object whose keys are not among the declared field
names: pydantic stores these as the extra-field bag when
`ConfigDict(extra="allow")` is set. -/
def filterExtras (entries : List (String × Json)) (declared : List String) :
    List (String × Json) :=
  entries.filter (fun kv => !(declared.contains kv.1))

/-- Python's substring test `needle in hay` on strings, on character lists.
Note that `"" in s` is `True` and that multi-character needles succeed
whenever they occur contiguously in `hay`. -/
def pySubstr (needle : List Char) : List Char → Bool
  | [] => needle.isEmpty
  | c :: t => needle.isPrefixOf (c :: t) || pySubstr needle t

/-- Python's `needle in hay` for strings. -/
def pyStrIn (needle hay : String) : Bool :=
  pySubstr needle.data hay.data

/-- Lowercase hexadecimal digit character for a nibble value (as Python's
`"%032x"` formatting of a UUID integer produces). -/
def hexChar (n : Nat) : Char :=
  if n < 10 then Char.ofNat (48 + n) else Char.ofNat (87 + n)

/-- Numeric value of a lowercase hexadecimal digit character, `none` for any
other character (the digit-parsing core of `int(hex, 16)` restricted to the
canonical lowercase form). -/
def hexCharVal (c : Char) : Option Nat :=
  if 48 ≤ c.toNat ∧ c.toNat ≤ 57 then some (c.toNat - 48)
  else if 97 ≤ c.toNat ∧ c.toNat ≤ 102 then some (c.toNat - 87)
  else none

/-- Fixed-width big-endian hexadecimal rendering of a natural number, least
significant digit written last. -/
def toHexFixed : Nat → Nat → List Char
  | 0, _ => []
  | w + 1, n => toHexFixed w (n / 16) ++ [hexChar (n % 16)]

/-- Accumulating hexadecimal parse of a character list; fails on the first
non-hex character. -/
def parseHexFrom (acc : Nat) : List Char → Option Nat
  | [] => some acc
  | c :: cs =>
    match hexCharVal c with
    | none => none
    | some d => parseHexFrom (acc * 16 + d) cs

/-- Model of Python's `uuid.UUID`: a 128-bit integer.  (Values constructed by
`uuid.uuid4()` or by parsing always satisfy `val < 2 ^ 128`.) -/
structure UUID where
  val : Nat
deriving DecidableEq

/-- Canonical textual form of a UUID, as `str(uuid)` produces: 32 lowercase
hex digits in 8-4-4-4-12 groups separated by hyphens.  This is what
`block.json()` emits for the `id` field. -/
def UUID.toStr (u : UUID) : String :=
  let cs := toHexFixed 32 u.val
  String.mk (cs.take 8 ++ '-' :: (cs.drop 8).take 4 ++ '-' :: (cs.drop 12).take 4
    ++ '-' :: (cs.drop 16).take 4 ++ '-' :: cs.drop 20)

/-- Model of `uuid.UUID(<string>)`: hyphens are stripped, the remaining text
must be exactly 32 hex digits, which are read as a 128-bit integer.  (The
Python constructor also strips `urn:uuid:` prefixes and braces and accepts
uppercase digits; those lenient cases are never produced by serialization and
are not modelled.) -/
def UUID.fromStr (s : String) : Option UUID :=
  let cs := s.data.filter (fun c => c ≠ '-')
  if cs.length = 32 then (parseHexFrom 0 cs).map UUID.mk else none

/-- Pydantic model configuration bits used by this module
(`ConfigDict(extra="allow", frozen=True)` on `SchedulingConstraint`,
pydantic defaults on the other models). -/
structure ModelConfig where
  frozen : Bool
  extraAllow : Bool

/-- Model of pydantic's `__setattr__` on a model instance: on a frozen model
the assignment raises and the instance is untouched; otherwise the field is
updated (with `validate_assignment` left at its default `False`, no
validation runs).  The result pairs the (possibly unchanged) instance with
the raised error, if any. -/
def pydanticSetattr {α : Type} (cfg : ModelConfig) (x : α) (update : α → α) :
    α × Option String :=
  if cfg.frozen then (x, some "Instance is frozen") else (update x, none)

/-- Configuration of the `SchedulingConstraint` base class, inherited by all
six constraint variants: `ConfigDict(extra="allow", frozen=True)`. -/
def SchedulingConstraint.model_config : ModelConfig :=
  { frozen := true, extraAllow := true }

/-- Configuration of `ObservingBlock` (and `ObservingScript`): pydantic
defaults, i.e. not frozen and extra fields ignored. -/
def ObservingBlock.model_config : ModelConfig :=
  { frozen := false, extraAllow := false }

/-- An `AirmassConstraint` instance: the declared `max` field plus the
extra-field bag that `extra="allow"` retains.  The `name` field is the
constant literal `"airmass"`. -/
structure AirmassConstraint where
  max : ℚ
  extra : List (String × Json)

def AirmassConstraint.name : String := "airmass"

/-- Validator `AirmassConstraint.check_max`: rejects `v < 1.0`. -/
def AirmassConstraint.check_max (v : ℚ) : Except String ℚ :=
  if v < 1.0 then .error "Airmass must b >= 1.0" else .ok v

/-- Construction `AirmassConstraint(max=v, **extra)`: runs the field
validator; no instance exists on failure. -/
def AirmassConstraint.create (v : ℚ) (extra : List (String × Json)) :
    Except String AirmassConstraint :=
  (AirmassConstraint.check_max v).map fun m => ⟨m, extra⟩

/-- A `MoonBrightnessConstraint` instance. -/
structure MoonBrightnessConstraint where
  max : ℚ
  extra : List (String × Json)

def MoonBrightnessConstraint.name : String := "moon_brightness"

/-- Validator `MoonBrightnessConstraint.check_max`: rejects values outside
`[0.0, 1.0]`. -/
def MoonBrightnessConstraint.check_max (v : ℚ) : Except String ℚ :=
  let b_min : ℚ := 0.0
  let b_max : ℚ := 1.0
  if v < b_min ∨ v > b_max then
    .error "Moon brightness constraint must be between 0.0 and 1.0"
  else .ok v

/-- Construction `MoonBrightnessConstraint(max=v, **extra)`. -/
def MoonBrightnessConstraint.create (v : ℚ) (extra : List (String × Json)) :
    Except String MoonBrightnessConstraint :=
  (MoonBrightnessConstraint.check_max v).map fun m => ⟨m, extra⟩

/-- A `MoonDistanceConstraint` instance. -/
structure MoonDistanceConstraint where
  max : ℚ
  extra : List (String × Json)

def MoonDistanceConstraint.name : String := "moon_distance"

/-- Validator `MoonDistanceConstraint.check_max`: rejects values outside
`[0.0, 180.0]`. -/
def MoonDistanceConstraint.check_max (v : ℚ) : Except String ℚ :=
  let d_min : ℚ := 0.0
  let d_max : ℚ := 180.0
  if v < d_min ∨ v > d_max then
    .error "Moon distance constraint must be between 0.0 and 180.0"
  else .ok v

/-- Construction `MoonDistanceConstraint(max=v, **extra)`. -/
def MoonDistanceConstraint.create (v : ℚ) (extra : List (String × Json)) :
    Except String MoonDistanceConstraint :=
  (MoonDistanceConstraint.check_max v).map fun m => ⟨m, extra⟩

/-- A `SkyBrightnessConstraint` instance: declared fields `max` and `band`
plus the extra-field bag. -/
structure SkyBrightnessConstraint where
  max : ℚ
  band : String
  extra : List (String × Json)

def SkyBrightnessConstraint.name : String := "sky_brightness"

/-- Validator `SkyBrightnessConstraint.check_band`: the source test is
`v not in "ugrizy"`, Python's substring membership, so any contiguous
substring of `"ugrizy"` (including `""` and `"gr"`) is accepted. -/
def SkyBrightnessConstraint.check_band (v : String) : Except String String :=
  if pyStrIn v "ugrizy" then .ok v
  else .error "Band constraint must be one of ugrizy"

/-- Validator `SkyBrightnessConstraint.check_max`: rejects `v < 0.0`. -/
def SkyBrightnessConstraint.check_max (v : ℚ) : Except String ℚ :=
  if v < 0.0 then .error "Sky brightness constraint must be positive" else .ok v

/-- Construction `SkyBrightnessConstraint(max=v, band=b, **extra)`: both
field validators must pass. -/
def SkyBrightnessConstraint.create (v : ℚ) (b : String)
    (extra : List (String × Json)) : Except String SkyBrightnessConstraint :=
  match SkyBrightnessConstraint.check_max v, SkyBrightnessConstraint.check_band b with
  | .ok m, .ok bd => .ok ⟨m, bd, extra⟩
  | .error e, _ => .error e
  | _, .error e => .error e

/-- A `CloudExtinctionConstraint` instance. -/
structure CloudExtinctionConstraint where
  max : ℚ
  extra : List (String × Json)

def CloudExtinctionConstraint.name : String := "cloud_extinction"

/-- Validator `CloudExtinctionConstraint.check_max`: rejects `v < 0.0`. -/
def CloudExtinctionConstraint.check_max (v : ℚ) : Except String ℚ :=
  if v < 0.0 then .error "Cloud extinction must be positive" else .ok v

/-- Construction `CloudExtinctionConstraint(max=v, **extra)`. -/
def CloudExtinctionConstraint.create (v : ℚ) (extra : List (String × Json)) :
    Except String CloudExtinctionConstraint :=
  (CloudExtinctionConstraint.check_max v).map fun m => ⟨m, extra⟩

/-- A `SeeingConstraint` instance. -/
structure SeeingConstraint where
  max : ℚ
  extra : List (String × Json)

def SeeingConstraint.name : String := "seeing"

/-- Validator `SeeingConstraint.check_max`: rejects `v < 0.0`. -/
def SeeingConstraint.check_max (v : ℚ) : Except String ℚ :=
  if v < 0.0 then .error "Maximum seeing must be positive" else .ok v

/-- Construction `SeeingConstraint(max=v, **extra)`. -/
def SeeingConstraint.create (v : ℚ) (extra : List (String × Json)) :
    Except String SeeingConstraint :=
  (SeeingConstraint.check_max v).map fun m => ⟨m, extra⟩

/-- The discriminated union `SchedulingConstraints`: the six explicitly
enumerated constraint classes, discriminated by the `name` field. -/
inductive SchedulingConstraints where
  | airmass (c : AirmassConstraint)
  | moonBrightness (c : MoonBrightnessConstraint)
  | moonDistance (c : MoonDistanceConstraint)
  | cloudExtinction (c : CloudExtinctionConstraint)
  | skyBrightness (c : SkyBrightnessConstraint)
  | seeing (c : SeeingConstraint)

/-- Discriminator value (`name` field) of a union member. -/
def SchedulingConstraints.tag : SchedulingConstraints → String
  | .airmass _ => AirmassConstraint.name
  | .moonBrightness _ => MoonBrightnessConstraint.name
  | .moonDistance _ => MoonDistanceConstraint.name
  | .cloudExtinction _ => CloudExtinctionConstraint.name
  | .skyBrightness _ => SkyBrightnessConstraint.name
  | .seeing _ => SeeingConstraint.name

/-- A runtime instance of the `SchedulingConstraint` Python class: either one
of the six variants, or an instance of the base class itself (the base class
has no declared fields beyond the extra bag and is directly instantiable). -/
inductive ConstraintInstance where
  | variant (c : SchedulingConstraints)
  | base (extra : List (String × Json))

/-- Universe of Python values that can be passed to `add_constraint`: a
`SchedulingConstraint` instance, or a non-constraint value (a plain dict, a
string, an integer, `None`). -/
inductive PyValue where
  | inst (c : ConstraintInstance)
  | dict (entries : List (String × Json))
  | pystr (s : String)
  | pyint (n : Int)
  | pynone

/-- Python's `isinstance(v, SchedulingConstraint)` test performed by
`ObservingBlock.add_constraint`. -/
def isinstanceSchedulingConstraint : PyValue → Bool
  | .inst _ => true
  | _ => false

/-- Doubling of single quotes, the escaping YAML single-quoted style
applies. -/
def escSQ : List Char → List Char
  | [] => []
  | c :: t => if c = '\x27' then '\x27' :: '\x27' :: escSQ t else c :: escSQ t

/-- Model of the custom string representer `represent_string_with_colon`
registered by `get_script_configuration`: a string scalar containing a colon
is emitted in YAML single-quoted style (internal single quotes doubled), any
other string is emitted plain. -/
def yamlStrScalar (s : String) : String :=
  if pyStrIn ":" s then "\x27" ++ String.mk (escSQ s.data) ++ "\x27" else s

/-- Model of PyYAML's scalar rendering for a non-string scalar.  The exact
decimal formatting of numbers is abstracted by the rational's `toString`;
no verified property depends on the digits produced. -/
def yamlScalar : Json → Option String
  | .str s => some (yamlStrScalar s)
  | .num q => some (toString q)
  | .bool b => some (if b then "true" else "false")
  | .null => some "null"
  | _ => none

/-- Indentation prefix of n spaces. -/
def spaces (n : Nat) : String :=
  String.mk (List.replicate n ' ')

/-- Model of `yaml.safe_dump(..., default_flow_style=False, sort_keys=False)`
in block style: a mapping becomes one `key: value` line per entry in the
mapping's own (insertion) order — keys are not re-sorted — with nested
containers rendered indented on following lines; a sequence becomes `- item`
lines.  String scalars go through `yamlStrScalar`. -/
def yamlBlock (indent : Nat) : Json → String
  | .obj entries =>
    String.join (entries.attach.map fun ⟨⟨k, v⟩, h⟩ =>
      match yamlScalar v with
      | some sc => spaces indent ++ yamlStrScalar k ++ ": " ++ sc ++ "\n"
      | none => spaces indent ++ yamlStrScalar k ++ ":\n"
          ++ yamlBlock (indent + 2) v)
  | .arr items =>
    String.join (items.attach.map fun ⟨it, h⟩ =>
      match yamlScalar it with
      | some sc => spaces indent ++ "- " ++ sc ++ "\n"
      | none => spaces indent ++ "-\n" ++ yamlBlock (indent + 2) it)
  | j =>
    match yamlScalar j with
    | some sc => sc ++ "\n"
    | none => ""
termination_by j => sizeOf j
decreasing_by
  all_goals
    simp_wf
    have h1 := List.sizeOf_lt_of_mem h
    simp at h1 <;> omega

/-- An `ObservingScript`: script name, standard flag, and the opaque
parameter mapping (insertion-ordered). -/
structure ObservingScript where
  name : String
  standard : Bool
  parameters : List (String × Json)

/-- Method `ObservingScript.get_script_configuration`: the empty string when
`parameters` is falsy (empty), otherwise the YAML block dump of the
parameter mapping with `sort_keys=False` and the colon-quoting string
representer. -/
def ObservingScript.get_script_configuration (s : ObservingScript) : String :=
  if s.parameters.isEmpty then "" else yamlBlock 0 (Json.obj s.parameters)

/-- An `ObservingBlock`: name, unique id, program, the runtime list of
constraints, and the ordered list of scripts.  Field order matches the
source's declaration (and hence serialization) order. -/
structure ObservingBlock where
  name : String
  id : UUID
  program : String
  constraints : List ConstraintInstance
  scripts : List ObservingScript

/-- Method `ObservingBlock.add_constraint`: raises
`ValueError("Constraint has the wrong type.")` when the argument is not an
`isinstance` of `SchedulingConstraint` (leaving the block untouched);
otherwise appends the instance to `constraints` with no deduplication.  The
result pairs the resulting block with the raised error, if any. -/
def ObservingBlock.add_constraint (b : ObservingBlock) (v : PyValue) :
    ObservingBlock × Option String :=
  match v with
  | .inst c => ({ b with constraints := b.constraints ++ [c] }, none)
  | _ => (b, some "Constraint has the wrong type.")

/-- Serialization of an `AirmassConstraint`: declared fields in declaration
order (`name`, `max`) followed by the retained extra fields, as pydantic's
`model_dump` emits them. -/
def AirmassConstraint.toJson (c : AirmassConstraint) : Json :=
  .obj ([("name", .str AirmassConstraint.name), ("max", .num c.max)] ++ c.extra)

/-- Serialization of a `MoonBrightnessConstraint`. -/
def MoonBrightnessConstraint.toJson (c : MoonBrightnessConstraint) : Json :=
  .obj ([("name", .str MoonBrightnessConstraint.name), ("max", .num c.max)] ++ c.extra)

/-- Serialization of a `MoonDistanceConstraint`. -/
def MoonDistanceConstraint.toJson (c : MoonDistanceConstraint) : Json :=
  .obj ([("name", .str MoonDistanceConstraint.name), ("max", .num c.max)] ++ c.extra)

/-- Serialization of a `SkyBrightnessConstraint` (`name`, `max`, `band`, then
extras). -/
def SkyBrightnessConstraint.toJson (c : SkyBrightnessConstraint) : Json :=
  .obj ([("name", .str SkyBrightnessConstraint.name), ("max", .num c.max),
    ("band", .str c.band)] ++ c.extra)

/-- Serialization of a `CloudExtinctionConstraint`. -/
def CloudExtinctionConstraint.toJson (c : CloudExtinctionConstraint) : Json :=
  .obj ([("name", .str CloudExtinctionConstraint.name), ("max", .num c.max)] ++ c.extra)

/-- Serialization of a `SeeingConstraint`. -/
def SeeingConstraint.toJson (c : SeeingConstraint) : Json :=
  .obj ([("name", .str SeeingConstraint.name), ("max", .num c.max)] ++ c.extra)

/-- Serialization of a union member: each variant is tagged with its `name`
discriminator by construction. -/
def SchedulingConstraints.toJson : SchedulingConstraints → Json
  | .airmass c => c.toJson
  | .moonBrightness c => c.toJson
  | .moonDistance c => c.toJson
  | .cloudExtinction c => c.toJson
  | .skyBrightness c => c.toJson
  | .seeing c => c.toJson

/-- Serialization of a runtime constraint instance; a bare base-class
instance has no declared fields, only its extra bag. -/
def ConstraintInstance.toJson : ConstraintInstance → Json
  | .variant c => c.toJson
  | .base extra => .obj extra

/-- Serialization of an `ObservingScript`. -/
def ObservingScript.toJson (s : ObservingScript) : Json :=
  .obj [("name", .str s.name), ("standard", .bool s.standard),
    ("parameters", .obj s.parameters)]

/-- Serialization of an `ObservingBlock` (the shape of
`json.loads(block.json())`): fields in declaration order, the `id` as its
canonical textual form, constraints and scripts as arrays in list order. -/
def ObservingBlock.toJson (b : ObservingBlock) : Json :=
  .obj [("name", .str b.name), ("id", .str b.id.toStr), ("program", .str b.program),
    ("constraints", .arr (b.constraints.map ConstraintInstance.toJson)),
    ("scripts", .arr (b.scripts.map ObservingScript.toJson))]

/-- Deserialization of one constraint from the wire: pydantic's discriminated
union reads the `name` tag, dispatches on it to select the variant class,
and runs that class's full field validation; an unrecognized tag (or a
missing/non-string tag) is a hard error. -/
def constraintFromJson (j : Json) : Except String SchedulingConstraints :=
  match j with
  | .obj entries =>
    match lookupKey entries "name" with
    | some (.str tag) =>
      if tag = AirmassConstraint.name then
        match lookupKey entries "max" with
        | some (.num v) =>
          (AirmassConstraint.check_max v).map fun m =>
            .airmass ⟨m, filterExtras entries ["name", "max"]⟩
        | _ => .error "max: Field required or not a number"
      else if tag = MoonBrightnessConstraint.name then
        match lookupKey entries "max" with
        | some (.num v) =>
          (MoonBrightnessConstraint.check_max v).map fun m =>
            .moonBrightness ⟨m, filterExtras entries ["name", "max"]⟩
        | _ => .error "max: Field required or not a number"
      else if tag = MoonDistanceConstraint.name then
        match lookupKey entries "max" with
        | some (.num v) =>
          (MoonDistanceConstraint.check_max v).map fun m =>
            .moonDistance ⟨m, filterExtras entries ["name", "max"]⟩
        | _ => .error "max: Field required or not a number"
      else if tag = CloudExtinctionConstraint.name then
        match lookupKey entries "max" with
        | some (.num v) =>
          (CloudExtinctionConstraint.check_max v).map fun m =>
            .cloudExtinction ⟨m, filterExtras entries ["name", "max"]⟩
        | _ => .error "max: Field required or not a number"
      else if tag = SkyBrightnessConstraint.name then
        match lookupKey entries "max", lookupKey entries "band" with
        | some (.num v), some (.str bd) =>
          match SkyBrightnessConstraint.check_max v,
              SkyBrightnessConstraint.check_band bd with
          | .ok m, .ok b =>
            .ok (.skyBrightness ⟨m, b, filterExtras entries ["name", "max", "band"]⟩)
          | .error e, _ => .error e
          | _, .error e => .error e
        | _, _ => .error "max or band: Field required or wrong type"
      else if tag = SeeingConstraint.name then
        match lookupKey entries "max" with
        | some (.num v) =>
          (SeeingConstraint.check_max v).map fun m =>
            .seeing ⟨m, filterExtras entries ["name", "max"]⟩
        | _ => .error "max: Field required or not a number"
      else .error "name: Input tag does not match any of the expected tags"
    | _ => .error "Unable to extract tag using discriminator name"
  | _ => .error "Input should be a valid dictionary"

/-- Deserialization of an `ObservingScript` from the wire. -/
def scriptFromJson (j : Json) : Except String ObservingScript :=
  match j with
  | .obj entries =>
    match lookupKey entries "name", lookupKey entries "standard",
        lookupKey entries "parameters" with
    | some (.str n), some (.bool st), some (.obj ps) => .ok ⟨n, st, ps⟩
    | _, _, _ => .error "Field required or wrong type for observing script"
  | _ => .error "Input should be a valid dictionary"

/-- Deserialization of the `id` field: absent means the `default_factory`
generates a fresh identifier (passed in as `fresh`); a string is parsed as a
canonical UUID; anything else is a validation error. -/
def idFieldFromJson (fresh : UUID) (entries : List (String × Json)) :
    Except String UUID :=
  match lookupKey entries "id" with
  | none => .ok fresh
  | some (.str s) =>
    match UUID.fromStr s with
    | some u => .ok u
    | none => .error "id: badly formed hexadecimal UUID string"
  | some _ => .error "id: UUID input should be a string"

/-- Deserialization of the `constraints` field: absent means the
`default_factory` empty list; each array element goes through the
discriminated-union parser, and the whole block fails if any single element
fails. -/
def constraintsFieldFromJson (entries : List (String × Json)) :
    Except String (List ConstraintInstance) :=
  match lookupKey entries "constraints" with
  | none => .ok []
  | some (.arr cs) =>
    (cs.mapM constraintFromJson).map (List.map ConstraintInstance.variant)
  | some _ => .error "constraints: Input should be a valid list"

/-- Deserialization of an `ObservingBlock` (`ObservingBlock.parse_obj`):
every field is validated, arrays keep their order, unknown keys are ignored
(pydantic default `extra="ignore"` on `ObservingBlock`). -/
def blockFromJson (fresh : UUID) (j : Json) : Except String ObservingBlock :=
  match j with
  | .obj entries =>
    match lookupKey entries "name", lookupKey entries "program",
        lookupKey entries "scripts" with
    | some (.str n), some (.str p), some (.arr ss) => do
      let u ← idFieldFromJson fresh entries
      let cs ← constraintsFieldFromJson entries
      let scripts ← ss.mapM scriptFromJson
      return ⟨n, u, p, cs, scripts⟩
    | _, _, _ => .error "Field required or wrong type for observing block"
  | _ => .error "Input should be a valid dictionary"

/-- Check that an extra-field bag shadows none of the declared field names.
Pydantic can never store an extra field under a declared name (a keyword or
JSON key matching a declared field is bound to that field instead), so every
constructible instance satisfies this. -/
def extrasDisjoint (extra : List (String × Json)) (declared : List String) : Bool :=
  extra.all fun kv => !(declared.contains kv.1)

/-- Well-formedness of a union member, exactly the states reachable through
construction or deserialization: the numeric field is in the variant's
accepted range, the band (for sky brightness) passes `check_band`, and the
extra bag shadows no declared field. -/
def SchedulingConstraints.validB : SchedulingConstraints → Bool
  | .airmass c => decide (1 ≤ c.max) && extrasDisjoint c.extra ["name", "max"]
  | .moonBrightness c =>
    decide (0 ≤ c.max ∧ c.max ≤ 1) && extrasDisjoint c.extra ["name", "max"]
  | .moonDistance c =>
    decide (0 ≤ c.max ∧ c.max ≤ 180) && extrasDisjoint c.extra ["name", "max"]
  | .cloudExtinction c => decide (0 ≤ c.max) && extrasDisjoint c.extra ["name", "max"]
  | .skyBrightness c =>
    decide (0 ≤ c.max) && pyStrIn c.band "ugrizy"
      && extrasDisjoint c.extra ["name", "max", "band"]
  | .seeing c => decide (0 ≤ c.max) && extrasDisjoint c.extra ["name", "max"]

/-- Well-formedness of a runtime constraint instance: a well-formed variant
(a bare base-class instance is not a union member). -/
def ConstraintInstance.validB : ConstraintInstance → Bool
  | .variant c => c.validB
  | .base _ => false

/-- Well-formedness of an `ObservingBlock`: its identifier is a 128-bit
value (as every Python `uuid.UUID` is) and its constraints are well-formed
union members. -/
def ObservingBlock.Valid (b : ObservingBlock) : Prop :=
  b.id.val < 2 ^ 128 ∧ b.constraints.all ConstraintInstance.validB = true

/-! Helper lemmas about hexadecimal rendering and the UUID textual form. -/

theorem hexDigit_ok : ∀ d : Fin 16,
    hexCharVal (hexChar d.val) = some d.val ∧ hexChar d.val ≠ '-' := by decide

theorem toHexFixed_length (w : ℕ) : ∀ n, (toHexFixed w n).length = w := by
  induction w with
  | zero => intro n; rfl
  | succ w ih => intro n; simp [toHexFixed, ih]

theorem mem_toHexFixed_ne_dash (w : ℕ) : ∀ n c, c ∈ toHexFixed w n → c ≠ '-' := by
  induction w with
  | zero => simp [toHexFixed]
  | succ w ih =>
    intro n c hc
    simp only [toHexFixed, List.mem_append, List.mem_singleton] at hc
    rcases hc with h | rfl
    · exact ih _ c h
    · exact (hexDigit_ok ⟨n % 16, Nat.mod_lt _ (by norm_num)⟩).2

theorem parseHexFrom_toHexFixed (w : ℕ) : ∀ acc n rest,
    parseHexFrom acc (toHexFixed w n ++ rest)
      = parseHexFrom (acc * 16 ^ w + n % 16 ^ w) rest := by
  induction w with
  | zero => intro acc n rest; simp [toHexFixed, parseHexFrom, Nat.mod_one]
  | succ w ih =>
    intro acc n rest
    simp only [toHexFixed, List.append_assoc, List.singleton_append]
    rw [ih]
    have hd := (hexDigit_ok ⟨n % 16, Nat.mod_lt _ (by norm_num)⟩).1
    simp only [parseHexFrom, hd]
    congr 1
    rw [pow_succ', Nat.mod_mul]
    ring

theorem filter_reassemble (cs : List Char) (h : ∀ c ∈ cs, c ≠ '-') :
    (cs.take 8 ++ '-' :: (cs.drop 8).take 4 ++ '-' :: (cs.drop 12).take 4
      ++ '-' :: (cs.drop 16).take 4 ++ '-' :: cs.drop 20).filter
        (fun c => c ≠ '-') = cs := by
  have hkeep : ∀ (l : List Char), (∀ c ∈ l, c ≠ '-') →
      l.filter (fun c => !decide (c = '-')) = l := fun l hl =>
    List.filter_eq_self.mpr fun a ha => by simp [hl a ha]
  have hsub : ∀ (n m : ℕ), ∀ c ∈ (cs.drop n).take m, c ≠ '-' := by
    intro n m c hc
    exact h c (List.drop_subset n cs (List.take_subset m _ hc))
  have htake : ∀ (m : ℕ), ∀ c ∈ cs.take m, c ≠ '-' := by
    intro m c hc; exact h c (List.take_subset m cs hc)
  simp only [List.filter_append, List.filter_cons]
  simp only [decide_not]
  norm_num
  rw [hkeep _ (htake 8), hkeep _ (hsub 8 4), hkeep _ (hsub 12 4), hkeep _ (hsub 16 4),
    hkeep _ (fun c hc => h c (List.drop_subset 20 cs hc))]
  have h20 : (cs.drop 16).take 4 ++ cs.drop 20 = cs.drop 16 := by
    have := List.take_append_drop 4 (cs.drop 16)
    rw [List.drop_drop] at this
    norm_num at this
    exact this
  have h16 : (cs.drop 12).take 4 ++ cs.drop 16 = cs.drop 12 := by
    have := List.take_append_drop 4 (cs.drop 12)
    rw [List.drop_drop] at this
    norm_num at this
    exact this
  have h12 : (cs.drop 8).take 4 ++ cs.drop 12 = cs.drop 8 := by
    have := List.take_append_drop 4 (cs.drop 8)
    rw [List.drop_drop] at this
    norm_num at this
    exact this
  have h8 : cs.take 8 ++ cs.drop 8 = cs := List.take_append_drop 8 cs
  calc cs.take 8 ++ ((cs.drop 8).take 4 ++ ((cs.drop 12).take 4
        ++ ((cs.drop 16).take 4 ++ cs.drop 20)))
      = cs := by rw [h20, h16, h12]; exact h8

theorem uuid_fromStr_toStr (u : UUID) (h : u.val < 2 ^ 128) :
    UUID.fromStr u.toStr = some u := by
  have hne : ∀ c ∈ toHexFixed 32 u.val, c ≠ '-' :=
    fun c hc => mem_toHexFixed_ne_dash 32 u.val c hc
  have hdata : (UUID.toStr u).data =
      (toHexFixed 32 u.val).take 8 ++ '-' :: ((toHexFixed 32 u.val).drop 8).take 4
        ++ '-' :: ((toHexFixed 32 u.val).drop 12).take 4
        ++ '-' :: ((toHexFixed 32 u.val).drop 16).take 4
        ++ '-' :: (toHexFixed 32 u.val).drop 20 := rfl
  rw [UUID.fromStr, hdata, filter_reassemble _ hne]
  rw [toHexFixed_length]
  simp only [if_pos rfl, reduceIte]
  have hp : parseHexFrom 0 (toHexFixed 32 u.val ++ [])
      = parseHexFrom (0 * 16 ^ 32 + u.val % 16 ^ 32) [] :=
    parseHexFrom_toHexFixed 32 0 u.val []
  rw [List.append_nil] at hp
  rw [hp]
  have hval : 0 * 16 ^ 32 + u.val % 16 ^ 32 = u.val := by
    have h16 : (16 : ℕ) ^ 32 = 2 ^ 128 := by norm_num
    rw [Nat.zero_mul, Nat.zero_add]
    exact Nat.mod_eq_of_lt (by rw [h16]; exact h)
  rw [hval, parseHexFrom]
  rfl

theorem filterExtras_prefix (pre extra : List (String × Json)) (declared : List String)
    (hpre : ∀ kv ∈ pre, declared.contains kv.1 = true)
    (hext : extrasDisjoint extra declared = true) :
    filterExtras (pre ++ extra) declared = extra := by
  unfold filterExtras
  rw [List.filter_append]
  have h1 : (pre.filter fun kv => !(declared.contains kv.1)) = [] :=
    List.filter_eq_nil_iff.mpr fun a ha => by simp only [hpre a ha]; decide
  have h2 : (extra.filter fun kv => !(declared.contains kv.1)) = extra :=
    List.filter_eq_self.mpr (List.all_eq_true.mp hext)
  rw [h1, h2, List.nil_append]

theorem filterExtras_tag_max (tag : String) (x : Json) (e : List (String × Json))
    (hext : extrasDisjoint e ["name", "max"] = true) :
    filterExtras (("name", Json.str tag) :: ("max", x) :: e) ["name", "max"] = e := by
  have := filterExtras_prefix [("name", Json.str tag), ("max", x)] e ["name", "max"]
    (by intro kv hkv
        simp only [List.mem_cons, List.not_mem_nil, or_false] at hkv
        rcases hkv with rfl | rfl <;> simp) hext
  simpa using this

theorem constraintFromJson_toJson (c : SchedulingConstraints) (h : c.validB = true) :
    constraintFromJson c.toJson = .ok c := by
  cases c with
  | airmass c =>
    obtain ⟨m, e⟩ := c
    simp only [SchedulingConstraints.validB, Bool.and_eq_true, decide_eq_true_eq] at h
    obtain ⟨h1, h2⟩ := h
    have hfe := filterExtras_tag_max "airmass" (Json.num m) e h2
    have hlt : ¬ (m < 1.0) := by norm_num; exact h1
    simp only [SchedulingConstraints.toJson, AirmassConstraint.toJson,
      AirmassConstraint.name, List.cons_append, List.nil_append]
    simp +decide [constraintFromJson, lookupKey, AirmassConstraint.check_max,
      Except.map, hlt, hfe]
  | moonBrightness c =>
    obtain ⟨m, e⟩ := c
    simp only [SchedulingConstraints.validB, Bool.and_eq_true, decide_eq_true_eq] at h
    obtain ⟨⟨h1a, h1b⟩, h2⟩ := h
    have hfe := filterExtras_tag_max "moon_brightness" (Json.num m) e h2
    have hlt : ¬ (m < 0.0 ∨ m > 1.0) := by
      push_neg
      norm_num
      exact ⟨h1a, h1b⟩
    simp only [SchedulingConstraints.toJson, MoonBrightnessConstraint.toJson,
      MoonBrightnessConstraint.name, List.cons_append, List.nil_append]
    simp +decide [constraintFromJson, lookupKey, MoonBrightnessConstraint.check_max,
      Except.map, hlt, hfe]
  | moonDistance c =>
    obtain ⟨m, e⟩ := c
    simp only [SchedulingConstraints.validB, Bool.and_eq_true, decide_eq_true_eq] at h
    obtain ⟨⟨h1a, h1b⟩, h2⟩ := h
    have hfe := filterExtras_tag_max "moon_distance" (Json.num m) e h2
    have hlt : ¬ (m < 0.0 ∨ m > 180.0) := by
      push_neg
      norm_num
      exact ⟨h1a, h1b⟩
    simp only [SchedulingConstraints.toJson, MoonDistanceConstraint.toJson,
      MoonDistanceConstraint.name, List.cons_append, List.nil_append]
    simp +decide [constraintFromJson, lookupKey, MoonDistanceConstraint.check_max,
      Except.map, hlt, hfe]
  | cloudExtinction c =>
    obtain ⟨m, e⟩ := c
    simp only [SchedulingConstraints.validB, Bool.and_eq_true, decide_eq_true_eq] at h
    obtain ⟨h1, h2⟩ := h
    have hfe := filterExtras_tag_max "cloud_extinction" (Json.num m) e h2
    have hlt : ¬ (m < 0.0) := by norm_num; exact h1
    simp only [SchedulingConstraints.toJson, CloudExtinctionConstraint.toJson,
      CloudExtinctionConstraint.name, List.cons_append, List.nil_append]
    simp +decide [constraintFromJson, lookupKey, CloudExtinctionConstraint.check_max,
      Except.map, hlt, hfe]
  | skyBrightness c =>
    obtain ⟨m, b, e⟩ := c
    simp only [SchedulingConstraints.validB, Bool.and_eq_true, decide_eq_true_eq] at h
    obtain ⟨⟨h1, hband⟩, h2⟩ := h
    have hfe : filterExtras (("name", Json.str "sky_brightness") :: ("max", Json.num m)
        :: ("band", Json.str b) :: e) ["name", "max", "band"] = e := by
      have := filterExtras_prefix
        [("name", Json.str "sky_brightness"), ("max", Json.num m), ("band", Json.str b)]
        e ["name", "max", "band"]
        (by intro kv hkv
            simp only [List.mem_cons, List.not_mem_nil, or_false] at hkv
            rcases hkv with rfl | rfl | rfl <;> simp) h2
      simpa using this
    have hlt : ¬ (m < 0.0) := by norm_num; exact h1
    simp only [SchedulingConstraints.toJson, SkyBrightnessConstraint.toJson,
      SkyBrightnessConstraint.name, List.cons_append, List.nil_append]
    simp +decide [constraintFromJson, lookupKey, SkyBrightnessConstraint.check_max,
      SkyBrightnessConstraint.check_band, Except.map, hlt, hband, hfe]
  | seeing c =>
    obtain ⟨m, e⟩ := c
    simp only [SchedulingConstraints.validB, Bool.and_eq_true, decide_eq_true_eq] at h
    obtain ⟨h1, h2⟩ := h
    have hfe := filterExtras_tag_max "seeing" (Json.num m) e h2
    have hlt : ¬ (m < 0.0) := by norm_num; exact h1
    simp only [SchedulingConstraints.toJson, SeeingConstraint.toJson,
      SeeingConstraint.name, List.cons_append, List.nil_append]
    simp +decide [constraintFromJson, lookupKey, SeeingConstraint.check_max,
      Except.map, hlt, hfe]

theorem scriptFromJson_toJson (s : ObservingScript) :
    scriptFromJson s.toJson = .ok s := by
  obtain ⟨n, st, ps⟩ := s
  simp +decide [scriptFromJson, ObservingScript.toJson, lookupKey]

theorem mapM_ok {α β : Type} (f : α → Except String β) (g : α → β) :
    ∀ l : List α, (∀ x ∈ l, f x = .ok (g x)) → l.mapM f = .ok (l.map g) := by
  intro l h
  induction l with
  | nil => rfl
  | cons a t ih =>
    rw [List.map_cons, List.mapM_cons, h a (List.mem_cons_self a t),
      ih fun x hx => h x (List.mem_cons_of_mem a hx)]
    rfl

theorem constraints_parse (cs : List ConstraintInstance)
    (h : cs.all ConstraintInstance.validB = true) :
    ((cs.map ConstraintInstance.toJson).mapM constraintFromJson).map
      (List.map ConstraintInstance.variant) = .ok cs := by
  induction cs with
  | nil => rfl
  | cons ci t ih =>
    simp only [List.all_cons, Bool.and_eq_true] at h
    obtain ⟨h1, h2⟩ := h
    cases ci with
    | base e => simp [ConstraintInstance.validB] at h1
    | variant c =>
      have hc := constraintFromJson_toJson c h1
      have iht := ih h2
      cases hmm : (t.map ConstraintInstance.toJson).mapM constraintFromJson with
      | error e => rw [hmm] at iht; simp [Except.map] at iht
      | ok l =>
        rw [hmm] at iht
        simp only [Except.map] at iht
        injection iht with iht
        rw [List.map_cons, show (ConstraintInstance.variant c).toJson = c.toJson from rfl,
          List.mapM_cons, hc, hmm]
        simp [Except.map, Bind.bind, Except.bind, pure, Except.pure, iht]


theorem scripts_parse : ∀ ss : List ObservingScript,
    (ss.map ObservingScript.toJson).mapM scriptFromJson = .ok ss := by
  intro ss
  induction ss with
  | nil => rfl
  | cons s t ih => rw [List.map_cons, List.mapM_cons, scriptFromJson_toJson, ih]; rfl

theorem blockFromJson_toJson (fresh : UUID) (b : ObservingBlock) (h : b.Valid) :
    blockFromJson fresh b.toJson = .ok b := by
  obtain ⟨n, u, p, cs, ss⟩ := b
  obtain ⟨hid, hcs⟩ := h
  have huuid := uuid_fromStr_toStr u hid
  have hcp := constraints_parse cs hcs
  have hsp := scripts_parse ss
  simp only [List.mapM] at hcp hsp
  simp +decide [blockFromJson, ObservingBlock.toJson, lookupKey, idFieldFromJson,
    constraintsFieldFromJson, huuid, hcp, hsp, Bind.bind, Except.bind, pure, Except.pure]


/-- C4: for each of the six constraint variants, constructing with a numeric
value outside its declared range (Airmass max < 1.0; MoonBrightness max
outside [0.0, 1.0]; MoonDistance max outside [0.0, 180.0]; SkyBrightness
max < 0.0; CloudExtinction max < 0.0; Seeing max < 0.0) fails immediately
with a validation error and no instance is produced, while constructing with
a value at or inside the boundary succeeds and stores that value. -/
theorem C4_range_validation :
    (∀ v e, v < 1 → AirmassConstraint.create v e = .error "Airmass must b >= 1.0")
    ∧ (∀ v e, 1 ≤ v → AirmassConstraint.create v e = .ok ⟨v, e⟩)
    ∧ (∀ v e, v < 0 ∨ 1 < v → MoonBrightnessConstraint.create v e
        = .error "Moon brightness constraint must be between 0.0 and 1.0")
    ∧ (∀ v e, 0 ≤ v → v ≤ 1 → MoonBrightnessConstraint.create v e = .ok ⟨v, e⟩)
    ∧ (∀ v e, v < 0 ∨ 180 < v → MoonDistanceConstraint.create v e
        = .error "Moon distance constraint must be between 0.0 and 180.0")
    ∧ (∀ v e, 0 ≤ v → v ≤ 180 → MoonDistanceConstraint.create v e = .ok ⟨v, e⟩)
    ∧ (∀ v b e, v < 0 → SkyBrightnessConstraint.create v b e
        = .error "Sky brightness constraint must be positive")
    ∧ (∀ v b e, 0 ≤ v → pyStrIn b "ugrizy" = true →
        SkyBrightnessConstraint.create v b e = .ok ⟨v, b, e⟩)
    ∧ (∀ v e, v < 0 → CloudExtinctionConstraint.create v e
        = .error "Cloud extinction must be positive")
    ∧ (∀ v e, 0 ≤ v → CloudExtinctionConstraint.create v e = .ok ⟨v, e⟩)
    ∧ (∀ v e, v < 0 → SeeingConstraint.create v e
        = .error "Maximum seeing must be positive")
    ∧ (∀ v e, 0 ≤ v → SeeingConstraint.create v e = .ok ⟨v, e⟩) := by
  refine ⟨?_, ?_, ?_, ?_, ?_, ?_, ?_, ?_, ?_, ?_, ?_, ?_⟩
  · intro v e h
    rw [AirmassConstraint.create, AirmassConstraint.check_max,
      if_pos (by norm_num1; exact h)]
    rfl
  · intro v e h
    rw [AirmassConstraint.create, AirmassConstraint.check_max,
      if_neg (by norm_num1; exact not_lt.mpr h)]
    rfl
  · intro v e h
    simp only [MoonBrightnessConstraint.create, MoonBrightnessConstraint.check_max]
    rw [if_pos (by norm_num1; exact h)]
    rfl
  · intro v e h1 h2
    simp only [MoonBrightnessConstraint.create, MoonBrightnessConstraint.check_max]
    rw [if_neg (by norm_num1; rintro (hc | hc) <;> linarith)]
    rfl
  · intro v e h
    simp only [MoonDistanceConstraint.create, MoonDistanceConstraint.check_max]
    rw [if_pos (by norm_num1; exact h)]
    rfl
  · intro v e h1 h2
    simp only [MoonDistanceConstraint.create, MoonDistanceConstraint.check_max]
    rw [if_neg (by norm_num1; rintro (hc | hc) <;> linarith)]
    rfl
  · intro v b e h
    simp only [SkyBrightnessConstraint.create, SkyBrightnessConstraint.check_max]
    rw [if_pos (by norm_num1; exact h)]
    cases SkyBrightnessConstraint.check_band b <;> rfl
  · intro v b e h1 h2
    simp only [SkyBrightnessConstraint.create, SkyBrightnessConstraint.check_max,
      SkyBrightnessConstraint.check_band, h2]
    rw [if_neg (by norm_num1; exact not_lt.mpr h1)]
    simp
  · intro v e h
    rw [CloudExtinctionConstraint.create, CloudExtinctionConstraint.check_max,
      if_pos (by norm_num1; exact h)]
    rfl
  · intro v e h
    rw [CloudExtinctionConstraint.create, CloudExtinctionConstraint.check_max,
      if_neg (by norm_num1; exact not_lt.mpr h)]
    rfl
  · intro v e h
    rw [SeeingConstraint.create, SeeingConstraint.check_max,
      if_pos (by norm_num1; exact h)]
    rfl
  · intro v e h
    rw [SeeingConstraint.create, SeeingConstraint.check_max,
      if_neg (by norm_num1; exact not_lt.mpr h)]
    rfl


/-- Witness for C4 at concrete inputs, matching the test suite's cases. -/
theorem C4_range_validation_witness :
    ((0 : ℚ) < 1 ∧ AirmassConstraint.create 0 [] = .error "Airmass must b >= 1.0")
    ∧ ((1 : ℚ) ≤ 1 ∧ AirmassConstraint.create 1 [] = .ok ⟨1, []⟩)
    ∧ ((1 : ℚ) < 2 ∧ MoonBrightnessConstraint.create 2 []
        = .error "Moon brightness constraint must be between 0.0 and 1.0")
    ∧ MoonBrightnessConstraint.create 1 [] = .ok ⟨1, []⟩
    ∧ ((180 : ℚ) < 181 ∧ MoonDistanceConstraint.create 181 []
        = .error "Moon distance constraint must be between 0.0 and 180.0")
    ∧ MoonDistanceConstraint.create 180 [] = .ok ⟨180, []⟩
    ∧ ((-1 : ℚ) < 0 ∧ SkyBrightnessConstraint.create (-1) "u" []
        = .error "Sky brightness constraint must be positive")
    ∧ SkyBrightnessConstraint.create 10 "u" [] = .ok ⟨10, "u", []⟩
    ∧ CloudExtinctionConstraint.create (-10) [] = .error "Cloud extinction must be positive"
    ∧ CloudExtinctionConstraint.create 8 [] = .ok ⟨8, []⟩
    ∧ SeeingConstraint.create (-1) [] = .error "Maximum seeing must be positive"
    ∧ SeeingConstraint.create 0 [] = .ok ⟨0, []⟩ := by
  obtain ⟨a1, a2, m1, m2, d1, d2, s1, s2, c1, c2, e1, e2⟩ := C4_range_validation
  refine ⟨⟨by norm_num, a1 0 [] (by norm_num)⟩, ⟨le_refl 1, a2 1 [] (le_refl 1)⟩,
    ⟨by norm_num, m1 2 [] (Or.inr (by norm_num))⟩, m2 1 [] (by norm_num) (le_refl 1),
    ⟨by norm_num, d1 181 [] (Or.inr (by norm_num))⟩, d2 180 [] (by norm_num) (le_refl 180),
    ⟨by norm_num, s1 (-1) "u" [] (by norm_num)⟩, s2 10 "u" [] (by norm_num) (by decide),
    c1 (-10) [] (by norm_num), c2 8 [] (by norm_num),
    e1 (-1) [] (by norm_num), e2 0 [] (le_refl 0)⟩


/-- C1 (code evaluated at the failing inputs): the source's band check
`v not in "ugrizy"` is Python's substring test, so `band="gr"` and `band=""`
are accepted even though they are not among the six single-letter bands,
while `band="x"` is rejected and each single-letter band is accepted. -/
theorem C1_band_substring_check :
    SkyBrightnessConstraint.create 1 "gr" [] = .ok ⟨1, "gr", []⟩
    ∧ SkyBrightnessConstraint.create 1 "" [] = .ok ⟨1, "", []⟩
    ∧ SkyBrightnessConstraint.create 1 "x" []
        = .error "Band constraint must be one of ugrizy"
    ∧ SkyBrightnessConstraint.create 1 "u" [] = .ok ⟨1, "u", []⟩
    ∧ SkyBrightnessConstraint.check_band "rg"
        = .error "Band constraint must be one of ugrizy" := by
  have hm : SkyBrightnessConstraint.check_max 1 = .ok 1 := by
    rw [SkyBrightnessConstraint.check_max, if_neg (by norm_num)]
  refine ⟨?_, ?_, ?_, ?_, ?_⟩ <;>
    simp +decide [SkyBrightnessConstraint.create, hm, SkyBrightnessConstraint.check_band]

/-- C3 counterexample: a bare `SchedulingConstraint` base-class instance is
not one of the six enumerated variants, yet `add_constraint` raises no error
for it and appends it (the source only checks
`isinstance(constraint, SchedulingConstraint)`). -/
theorem C3_counterexample_base_instance_accepted :
    (ObservingBlock.add_constraint ⟨"B", ⟨0⟩, "P", [], []⟩ (.inst (.base []))).2 = none
    ∧ (ObservingBlock.add_constraint ⟨"B", ⟨0⟩, "P", [], []⟩
        (.inst (.base []))).1.constraints = [.base []] :=
  ⟨rfl, rfl⟩

/-- C3 (amended): `add_constraint` raises
`ValueError("Constraint has the wrong type.")` and leaves the block—in
particular its constraints sequence—unchanged exactly when the argument is
not an instance of the `SchedulingConstraint` base class (e.g., a raw
mapping, a string, an integer, or `None`). -/
theorem C3_add_constraint_type_error (b : ObservingBlock) (v : PyValue)
    (h : isinstanceSchedulingConstraint v = false) :
    b.add_constraint v = (b, some "Constraint has the wrong type.") := by
  cases v
  case inst c => simp [isinstanceSchedulingConstraint] at h
  all_goals rfl

/-- Witness for C3 (amended): a plain mapping shaped like a constraint is
rejected and the block is unchanged. -/
theorem C3_add_constraint_type_error_witness :
    isinstanceSchedulingConstraint (.dict [("moon_brightness", Json.num (4/5))]) = false
    ∧ ObservingBlock.add_constraint ⟨"B", ⟨0⟩, "P", [], []⟩
        (.dict [("moon_brightness", Json.num (4/5))])
        = (⟨"B", ⟨0⟩, "P", [], []⟩, some "Constraint has the wrong type.") :=
  ⟨rfl, C3_add_constraint_type_error _ _ rfl⟩

/-- C6: every constraint variant instance is frozen
(`ConfigDict(frozen=True)` inherited from `SchedulingConstraint`): any
attempted field reassignment through pydantic's setattr raises and returns
the instance unchanged. -/
theorem C6_constraint_variants_frozen (c : SchedulingConstraints)
    (f : SchedulingConstraints → SchedulingConstraints) :
    pydanticSetattr SchedulingConstraint.model_config c f
      = (c, some "Instance is frozen") := rfl

/-- C7: a block constructed with N scripts and M constraints has exactly
those lengths; a successful `add_constraint` raises nothing, grows the
constraint count by one, keeps the first M constraints unchanged in order,
puts the new constraint last, and touches nothing else; appending two
Airmass constraints in a row retains both in insertion order (no merge). -/
theorem C7_construction_and_append :
    (∀ nm id pr cs ss, (ObservingBlock.mk nm id pr cs ss).scripts.length = ss.length
      ∧ (ObservingBlock.mk nm id pr cs ss).constraints.length = cs.length)
    ∧ (∀ (b : ObservingBlock) (c : ConstraintInstance),
        (b.add_constraint (.inst c)).2 = none
        ∧ (b.add_constraint (.inst c)).1.constraints.length = b.constraints.length + 1
        ∧ (b.add_constraint (.inst c)).1.constraints.take b.constraints.length
            = b.constraints
        ∧ (b.add_constraint (.inst c)).1.constraints.getLast? = some c
        ∧ (b.add_constraint (.inst c)).1.scripts = b.scripts
        ∧ (b.add_constraint (.inst c)).1.name = b.name)
    ∧ (∀ (b : ObservingBlock) (a1 a2 : AirmassConstraint),
        ((b.add_constraint (.inst (.variant (.airmass a1)))).1.add_constraint
            (.inst (.variant (.airmass a2)))).1.constraints
          = b.constraints ++ [.variant (.airmass a1), .variant (.airmass a2)]) := by
  refine ⟨fun nm id pr cs ss => ⟨rfl, rfl⟩, fun b c => ?_, fun b a1 a2 => ?_⟩
  · refine ⟨rfl, ?_, ?_, ?_, rfl, rfl⟩
    · simp [ObservingBlock.add_constraint]
    · simp only [ObservingBlock.add_constraint, List.take_left]
    · simp only [ObservingBlock.add_constraint, List.getLast?_concat]
  · simp [ObservingBlock.add_constraint]

/-- C10: `ObservingBlock` itself is not frozen: assigning `name`, `program`
or `id` (any value, no validation) succeeds, updates exactly that field, and
leaves every other field—including constraints and scripts—unchanged. -/
theorem C10_block_not_frozen (b : ObservingBlock) (nm pr : String) (u : UUID) :
    (pydanticSetattr ObservingBlock.model_config b (fun x => { x with name := nm })
      = ({ b with name := nm }, none))
    ∧ (pydanticSetattr ObservingBlock.model_config b (fun x => { x with program := pr })
      = ({ b with program := pr }, none))
    ∧ (pydanticSetattr ObservingBlock.model_config b (fun x => { x with id := u })
      = ({ b with id := u }, none)) :=
  ⟨rfl, rfl, rfl⟩


/-- C8: for every constraint variant, construction with an arbitrary bag of
extra/unknown fields succeeds (given valid declared fields) and the extra
fields are retained on the instance (`ConfigDict(extra="allow")`). -/
theorem C8_extra_fields_retained :
    (∀ v e, 1 ≤ v → ∃ c, AirmassConstraint.create v e = .ok c ∧ c.extra = e)
    ∧ (∀ v e, 0 ≤ v → v ≤ 1 → ∃ c, MoonBrightnessConstraint.create v e = .ok c ∧ c.extra = e)
    ∧ (∀ v e, 0 ≤ v → v ≤ 180 → ∃ c, MoonDistanceConstraint.create v e = .ok c ∧ c.extra = e)
    ∧ (∀ v b e, 0 ≤ v → pyStrIn b "ugrizy" = true →
        ∃ c, SkyBrightnessConstraint.create v b e = .ok c ∧ c.extra = e)
    ∧ (∀ v e, 0 ≤ v → ∃ c, CloudExtinctionConstraint.create v e = .ok c ∧ c.extra = e)
    ∧ (∀ v e, 0 ≤ v → ∃ c, SeeingConstraint.create v e = .ok c ∧ c.extra = e) := by
  refine ⟨?_, ?_, ?_, ?_, ?_, ?_⟩
  · intro v e h
    refine ⟨⟨v, e⟩, ?_, rfl⟩
    rw [AirmassConstraint.create, AirmassConstraint.check_max,
      if_neg (by norm_num1; exact not_lt.mpr h)]
    rfl
  · intro v e h1 h2
    refine ⟨⟨v, e⟩, ?_, rfl⟩
    simp only [MoonBrightnessConstraint.create, MoonBrightnessConstraint.check_max]
    rw [if_neg (by norm_num1; rintro (hc | hc) <;> linarith)]
    rfl
  · intro v e h1 h2
    refine ⟨⟨v, e⟩, ?_, rfl⟩
    simp only [MoonDistanceConstraint.create, MoonDistanceConstraint.check_max]
    rw [if_neg (by norm_num1; rintro (hc | hc) <;> linarith)]
    rfl
  · intro v b e h1 h2
    refine ⟨⟨v, b, e⟩, ?_, rfl⟩
    simp only [SkyBrightnessConstraint.create, SkyBrightnessConstraint.check_max,
      SkyBrightnessConstraint.check_band, h2]
    rw [if_neg (by norm_num1; exact not_lt.mpr h1)]
    simp
  · intro v e h
    refine ⟨⟨v, e⟩, ?_, rfl⟩
    rw [CloudExtinctionConstraint.create, CloudExtinctionConstraint.check_max,
      if_neg (by norm_num1; exact not_lt.mpr h)]
    rfl
  · intro v e h
    refine ⟨⟨v, e⟩, ?_, rfl⟩
    rw [SeeingConstraint.create, SeeingConstraint.check_max,
      if_neg (by norm_num1; exact not_lt.mpr h)]
    rfl

/-- Witness for C8: each variant constructed with an extra `priority` field
keeps it. -/
theorem C8_extra_fields_retained_witness :
    ((1 : ℚ) ≤ 2 ∧ ∃ c, AirmassConstraint.create 2 [("priority", Json.num 5)] = .ok c
      ∧ c.extra = [("priority", Json.num 5)])
    ∧ (∃ c, MoonBrightnessConstraint.create 1 [("priority", Json.num 5)] = .ok c
      ∧ c.extra = [("priority", Json.num 5)])
    ∧ (∃ c, MoonDistanceConstraint.create 90 [("priority", Json.num 5)] = .ok c
      ∧ c.extra = [("priority", Json.num 5)])
    ∧ (∃ c, SkyBrightnessConstraint.create 2 "u" [("priority", Json.num 5)] = .ok c
      ∧ c.extra = [("priority", Json.num 5)])
    ∧ (∃ c, CloudExtinctionConstraint.create 8 [("priority", Json.num 5)] = .ok c
      ∧ c.extra = [("priority", Json.num 5)])
    ∧ (∃ c, SeeingConstraint.create 0 [("priority", Json.num 5)] = .ok c
      ∧ c.extra = [("priority", Json.num 5)]) := by
  obtain ⟨a1, m1, d1, s1, c1, e1⟩ := C8_extra_fields_retained
  exact ⟨⟨by norm_num, a1 2 _ (by norm_num)⟩, m1 1 _ (by norm_num) (le_refl 1),
    d1 90 _ (by norm_num) (by norm_num), s1 2 "u" _ (by norm_num) (by decide),
    c1 8 _ (by norm_num), e1 0 _ (le_refl 0)⟩


/-- C2: serializing any well-formed `ObservingBlock` to the JSON wire form
and deserializing it back reconstructs a structurally equal block: each
constraint is rebuilt to its exact original variant through the `name`
discriminator, the identifier round-trips through its canonical textual
form, and the order of both the scripts and constraints arrays is
preserved. -/
theorem C2_serialization_roundtrip (fresh : UUID) (b : ObservingBlock)
    (h : b.Valid) : blockFromJson fresh b.toJson = .ok b :=
  blockFromJson_toJson fresh b h

/-- Witness for C2 on the test suite's end-to-end block (two scripts, three
constraints, one carrying an extra field). -/
theorem C2_serialization_roundtrip_witness :
    ObservingBlock.Valid ⟨"OBS-123", ⟨81985529216486895⟩, "SITCOM-456",
      [.variant (.airmass ⟨2, []⟩), .variant (.seeing ⟨1, []⟩),
        .variant (.skyBrightness ⟨10, "u", [("weight", Json.num 2)]⟩)],
      [⟨"slew", true, [("target", Json.str "W48")]⟩,
        ⟨"standard_visit", false, [("exptime", Json.num 30)]⟩]⟩
    ∧ blockFromJson ⟨0⟩ (ObservingBlock.toJson ⟨"OBS-123", ⟨81985529216486895⟩,
        "SITCOM-456",
        [.variant (.airmass ⟨2, []⟩), .variant (.seeing ⟨1, []⟩),
          .variant (.skyBrightness ⟨10, "u", [("weight", Json.num 2)]⟩)],
        [⟨"slew", true, [("target", Json.str "W48")]⟩,
          ⟨"standard_visit", false, [("exptime", Json.num 30)]⟩]⟩)
      = .ok ⟨"OBS-123", ⟨81985529216486895⟩, "SITCOM-456",
        [.variant (.airmass ⟨2, []⟩), .variant (.seeing ⟨1, []⟩),
          .variant (.skyBrightness ⟨10, "u", [("weight", Json.num 2)]⟩)],
        [⟨"slew", true, [("target", Json.str "W48")]⟩,
          ⟨"standard_visit", false, [("exptime", Json.num 30)]⟩]⟩ := by
  have hv : ObservingBlock.Valid ⟨"OBS-123", ⟨81985529216486895⟩, "SITCOM-456",
      [.variant (.airmass ⟨2, []⟩), .variant (.seeing ⟨1, []⟩),
        .variant (.skyBrightness ⟨10, "u", [("weight", Json.num 2)]⟩)],
      [⟨"slew", true, [("target", Json.str "W48")]⟩,
        ⟨"standard_visit", false, [("exptime", Json.num 30)]⟩]⟩ :=
    ⟨by norm_num [ObservingBlock.Valid], by decide⟩
  exact ⟨hv, C2_serialization_roundtrip ⟨0⟩ _ hv⟩


theorem empty_string_append (x : String) : "" ++ x = x := rfl

theorem yamlBlock_obj (indent : ℕ) (entries : List (String × Json)) :
    yamlBlock indent (.obj entries) = String.join (entries.map fun kv =>
      match yamlScalar kv.2 with
      | some sc => spaces indent ++ yamlStrScalar kv.1 ++ ": " ++ sc ++ "\n"
      | none => spaces indent ++ yamlStrScalar kv.1 ++ ":\n"
          ++ yamlBlock (indent + 2) kv.2) := by
  rw [yamlBlock]
  congr 1
  trans (entries.attach.map fun i =>
    (fun kv : String × Json => match yamlScalar kv.2 with
      | some sc => spaces indent ++ yamlStrScalar kv.1 ++ ": " ++ sc ++ "\n"
      | none => spaces indent ++ yamlStrScalar kv.1 ++ ":\n"
          ++ yamlBlock (indent + 2) kv.2) i.1)
  · exact List.map_congr_left (by rintro ⟨⟨k, v⟩, hk⟩ _; rfl)
  · exact List.attach_map_coe entries
      (fun kv : String × Json => match yamlScalar kv.2 with
        | some sc => spaces indent ++ yamlStrScalar kv.1 ++ ": " ++ sc ++ "\n"
        | none => spaces indent ++ yamlStrScalar kv.1 ++ ":\n"
            ++ yamlBlock (indent + 2) kv.2)


/-- C9: `get_script_configuration` returns the empty string when the
parameter mapping is empty; otherwise it returns the YAML line-oriented
`key: value` rendering that maps the entries in insertion order (no
re-sorting), single-quoting any string value containing a colon and leaving
colon-free string values unquoted. -/
theorem C9_script_configuration :
    (∀ s : ObservingScript, s.parameters = [] → s.get_script_configuration = "")
    ∧ (∀ s : ObservingScript, s.parameters ≠ [] →
        s.get_script_configuration = String.join (s.parameters.map fun kv =>
          match yamlScalar kv.2 with
          | some sc => yamlStrScalar kv.1 ++ ": " ++ sc ++ "\n"
          | none => yamlStrScalar kv.1 ++ ":\n" ++ yamlBlock 2 kv.2))
    ∧ (∀ k v, pyStrIn ":" v = true →
        yamlBlock 0 (Json.obj [(k, Json.str v)])
          = yamlStrScalar k ++ ": " ++ ("\x27" ++ String.mk (escSQ v.data) ++ "\x27") ++ "\n")
    ∧ (∀ k v, pyStrIn ":" v = false →
        yamlBlock 0 (Json.obj [(k, Json.str v)])
          = yamlStrScalar k ++ ": " ++ v ++ "\n") := by
  have hjoin : ∀ s : String, String.join [s] = s := fun s => rfl
  refine ⟨?_, ?_, ?_, ?_⟩
  · intro s h
    rw [ObservingScript.get_script_configuration, if_pos (by simp [h])]
  · intro s h
    rw [ObservingScript.get_script_configuration, if_neg (by simp [h]),
      yamlBlock_obj]
    congr 1
  · intro k v h
    have hv : yamlStrScalar v = "\x27" ++ String.mk (escSQ v.data) ++ "\x27" := by
      rw [yamlStrScalar, if_pos h]
    rw [yamlBlock_obj]
    simp only [List.map_cons, List.map_nil]
    rw [show yamlScalar (Json.str v) = some (yamlStrScalar v) from rfl]
    rw [hjoin, hv]
    rfl
  · intro k v h
    have hv : yamlStrScalar v = v := by
      rw [yamlStrScalar, if_neg (by simp [h])]
    rw [yamlBlock_obj]
    simp only [List.map_cons, List.map_nil]
    rw [show yamlScalar (Json.str v) = some (yamlStrScalar v) from rfl]
    rw [hjoin, hv]
    rfl

/-- Witness for C9 on concrete scripts, including a colon-bearing value. -/
theorem C9_script_configuration_witness :
    (ObservingScript.mk "slew" true []).get_script_configuration = ""
    ∧ (ObservingScript.mk "slew" true
        [("target", Json.str "W48"), ("note", Json.str "a:b")]).parameters ≠ []
    ∧ (ObservingScript.mk "slew" true
        [("target", Json.str "W48"), ("note", Json.str "a:b")]).get_script_configuration
        = "target: W48\nnote: \x27a:b\x27\n"
    ∧ pyStrIn ":" "a:b" = true
    ∧ yamlBlock 0 (Json.obj [("note", Json.str "a:b")]) = "note: \x27a:b\x27\n"
    ∧ pyStrIn ":" "W48" = false
    ∧ yamlBlock 0 (Json.obj [("target", Json.str "W48")]) = "target: W48\n" := by
  obtain ⟨h1, h2, h3, h4⟩ := C9_script_configuration
  refine ⟨h1 _ rfl, by simp, ?_, by decide, ?_, by decide, ?_⟩
  · exact (h2 ⟨"slew", true, [("target", Json.str "W48"), ("note", Json.str "a:b")]⟩
      (by simp)).trans (by decide)
  · exact (h3 "note" "a:b" (by decide)).trans (by decide)
  · exact (h4 "target" "W48" (by decide)).trans (by decide)


theorem mapM_error {α β : Type} (f : α → Except String β) :
    ∀ (l : List α) (x : α) (e : String), x ∈ l → f x = .error e →
      ∃ e', l.mapM f = .error e' := by
  intro l
  induction l with
  | nil => intro x e hx; exact absurd hx (List.not_mem_nil x)
  | cons a t ih =>
    intro x e hx hfx
    rw [List.mapM_cons]
    rcases List.mem_cons.mp hx with rfl | hmem
    · refine ⟨e, ?_⟩
      rw [hfx]
      rfl
    · cases hfa : f a with
      | error e2 => exact ⟨e2, rfl⟩
      | ok b =>
        obtain ⟨e', ht⟩ := ih x e hmem hfx
        refine ⟨e', ?_⟩
        show (Except.ok b >>= fun y => t.mapM f >>= fun ys => pure (y :: ys))
          = Except.error e'
        rw [show ∀ k : β → Except String (List β),
          (Except.ok b >>= k) = k b from fun k => rfl]
        rw [ht]
        rfl


theorem except_bind_error {ε α β : Type} (e : ε) (k : α → Except ε β) :
    (Except.error e >>= k) = .error e := rfl

theorem except_bind_ok {ε α β : Type} (a : α) (k : α → Except ε β) :
    (Except.ok a >>= k) = k a := rfl

/-- C5: constraint deserialization dispatches purely on the `name`
discriminator tag: an ok result always carries the variant whose tag was
read, a tag outside the six recognized values is a hard error, and a block
whose constraints array contains any failing constraint fails to
deserialize as a whole. -/
theorem C5_discriminator_dispatch :
    (∀ entries tag, lookupKey entries "name" = some (.str tag) →
      tag ∉ (["airmass", "moon_brightness", "moon_distance", "cloud_extinction",
        "sky_brightness", "seeing"] : List String) →
      constraintFromJson (.obj entries)
        = .error "name: Input tag does not match any of the expected tags")
    ∧ (∀ entries (c : SchedulingConstraints),
        constraintFromJson (.obj entries) = .ok c →
        lookupKey entries "name" = some (.str c.tag))
    ∧ (∀ (fresh : UUID) entries cs j e,
        lookupKey entries "constraints" = some (.arr cs) →
        j ∈ cs → constraintFromJson j = .error e →
        ∃ e', blockFromJson fresh (.obj entries) = .error e') := by
  refine ⟨?_, ?_, ?_⟩
  · intro entries tag hl hnot
    have n1 : ¬(tag = AirmassConstraint.name) := fun hh => hnot (by rw [hh]; decide)
    have n2 : ¬(tag = MoonBrightnessConstraint.name) := fun hh => hnot (by rw [hh]; decide)
    have n3 : ¬(tag = MoonDistanceConstraint.name) := fun hh => hnot (by rw [hh]; decide)
    have n4 : ¬(tag = CloudExtinctionConstraint.name) := fun hh => hnot (by rw [hh]; decide)
    have n5 : ¬(tag = SkyBrightnessConstraint.name) := fun hh => hnot (by rw [hh]; decide)
    have n6 : ¬(tag = SeeingConstraint.name) := fun hh => hnot (by rw [hh]; decide)
    simp only [constraintFromJson, hl, if_neg n1, if_neg n2, if_neg n3, if_neg n4,
      if_neg n5, if_neg n6]
  · intro entries c h
    simp only [constraintFromJson] at h
    rcases hl : lookupKey entries "name" with _ | jv <;> rw [hl] at h
    · simp at h
    cases jv
    case str tag =>
      dsimp only at h
      split_ifs at h with h1 h2 h3 h4 h5 h6
      · rcases hm : lookupKey entries "max" with _ | mv <;> rw [hm] at h
        · simp at h
        cases mv
        all_goals dsimp only at h
        all_goals try (exact absurd h (by simp))
        rename_i v
        cases hcm : AirmassConstraint.check_max v <;> rw [hcm] at h
        · simp [Except.map] at h
        · simp only [Except.map] at h
          injection h with h
          subst h
          simp [SchedulingConstraints.tag, h1]
      · rcases hm : lookupKey entries "max" with _ | mv <;> rw [hm] at h
        · simp at h
        cases mv
        all_goals dsimp only at h
        all_goals try (exact absurd h (by simp))
        rename_i v
        cases hcm : MoonBrightnessConstraint.check_max v <;> rw [hcm] at h
        · simp [Except.map] at h
        · simp only [Except.map] at h
          injection h with h
          subst h
          simp [SchedulingConstraints.tag, h2]
      · rcases hm : lookupKey entries "max" with _ | mv <;> rw [hm] at h
        · simp at h
        cases mv
        all_goals dsimp only at h
        all_goals try (exact absurd h (by simp))
        rename_i v
        cases hcm : MoonDistanceConstraint.check_max v <;> rw [hcm] at h
        · simp [Except.map] at h
        · simp only [Except.map] at h
          injection h with h
          subst h
          simp [SchedulingConstraints.tag, h3]
      · rcases hm : lookupKey entries "max" with _ | mv <;> rw [hm] at h
        · simp at h
        cases mv
        all_goals dsimp only at h
        all_goals try (exact absurd h (by simp))
        rename_i v
        cases hcm : CloudExtinctionConstraint.check_max v <;> rw [hcm] at h
        · simp [Except.map] at h
        · simp only [Except.map] at h
          injection h with h
          subst h
          simp [SchedulingConstraints.tag, h4]
      · rcases hm : lookupKey entries "max" with _ | mv <;> rw [hm] at h
        · simp at h
        rcases hb : lookupKey entries "band" with _ | bv <;> rw [hb] at h
        · cases mv <;> simp at h
        cases mv <;> cases bv
        all_goals dsimp only at h
        all_goals try (exact absurd h (by simp))
        rename_i v bd
        cases hcm : SkyBrightnessConstraint.check_max v <;> rw [hcm] at h
        · simp at h
        cases hcb : SkyBrightnessConstraint.check_band bd <;> rw [hcb] at h
        · simp at h
        · dsimp only at h
          injection h with h
          subst h
          simp [SchedulingConstraints.tag, h5]
      · rcases hm : lookupKey entries "max" with _ | mv <;> rw [hm] at h
        · simp at h
        cases mv
        all_goals dsimp only at h
        all_goals try (exact absurd h (by simp))
        rename_i v
        cases hcm : SeeingConstraint.check_max v <;> rw [hcm] at h
        · simp [Except.map] at h
        · simp only [Except.map] at h
          injection h with h
          subst h
          simp [SchedulingConstraints.tag, h6]
    all_goals simp at h
  · intro fresh entries cs j e hlc hmem hje
    obtain ⟨e', hmapm⟩ := mapM_error constraintFromJson cs j e hmem hje
    cases hr : blockFromJson fresh (Json.obj entries) with
    | error e2 => exact ⟨e2, rfl⟩
    | ok b =>
      exfalso
      have hcf : constraintsFieldFromJson entries = .error e' := by
        simp only [constraintsFieldFromJson, hlc, hmapm]
        rfl
      simp only [blockFromJson] at hr
      split at hr
      · cases hid : idFieldFromJson fresh entries with
        | error e3 => rw [hid, except_bind_error] at hr; simp at hr
        | ok u =>
          rw [hid, except_bind_ok, hcf, except_bind_error] at hr
          simp at hr
      · simp at hr


/-- Witness for C5: the unknown tag `lunar_phase` is rejected at both the
constraint and block level, and a recognized tag dispatches to its
variant. -/
theorem C5_discriminator_dispatch_witness :
    lookupKey [("name", Json.str "lunar_phase"), ("max", Json.num 1)] "name"
      = some (.str "lunar_phase")
    ∧ "lunar_phase" ∉ (["airmass", "moon_brightness", "moon_distance",
        "cloud_extinction", "sky_brightness", "seeing"] : List String)
    ∧ constraintFromJson (.obj [("name", Json.str "lunar_phase"), ("max", Json.num 1)])
        = .error "name: Input tag does not match any of the expected tags"
    ∧ (∃ e', blockFromJson ⟨0⟩ (.obj [("name", Json.str "B"), ("program", Json.str "P"),
        ("scripts", Json.arr []),
        ("constraints", Json.arr
          [Json.obj [("name", Json.str "lunar_phase"), ("max", Json.num 1)]])])
        = .error e')
    ∧ lookupKey [("name", Json.str "airmass"), ("max", Json.num 2)] "name"
        = some (.str (SchedulingConstraints.airmass ⟨2, []⟩).tag) := by
  obtain ⟨h1, h2, h3⟩ := C5_discriminator_dispatch
  have hbad := h1 [("name", Json.str "lunar_phase"), ("max", Json.num 1)]
    "lunar_phase" rfl (by decide)
  have hok : constraintFromJson (.obj [("name", Json.str "airmass"), ("max", Json.num 2)])
      = .ok (.airmass ⟨2, []⟩) := by
    simp +decide [constraintFromJson, lookupKey, AirmassConstraint.check_max,
      filterExtras, Except.map]
    rw [if_neg (by norm_num)]
  refine ⟨rfl, by decide, hbad, ?_, h2 _ _ hok⟩
  exact h3 ⟨0⟩ _ [Json.obj [("name", Json.str "lunar_phase"), ("max", Json.num 1)]]
    (Json.obj [("name", Json.str "lunar_phase"), ("max", Json.num 1)])
    "name: Input tag does not match any of the expected tags" rfl (by simp) hbad

end Observing
